import Mathlib

/-!
Verification of the Bridgy expert-routing core (`bridgyv2-main`): a shallow
embedding of `experts/router.py`, the five expert classes and the
infrastructure/intersight API coordination layers, with the LLM backend and
the vendor API clients modelled as oracles (`Except`-valued environment
fields).  Python exceptions are modelled by `Except String`, a raised
exception being `.error msg`; Python strings are Lean `String`s and the
`in`, `lower`, `strip`, `split`, `startswith` operations are re-implemented
below over `List Char` so that every definition evaluates by `decide`/`rfl`.
-/

namespace Bridgy

/-! ## Python string primitives -/

/-- Python `str.lower` for the ASCII range (the repository only compares
ASCII keywords). -/
def lowerChar (c : Char) : Char :=
  if 65 ≤ c.toNat && c.toNat ≤ 90 then Char.ofNat (c.toNat + 32) else c

/-- Python `str.lower`. -/
def pyLower (s : String) : String := String.mk (s.toList.map lowerChar)

/-- Python `str.strip()` (leading and trailing whitespace removed). -/
def pyStrip (s : String) : String :=
  String.mk (((s.toList.dropWhile Char.isWhitespace).reverse.dropWhile Char.isWhitespace).reverse)

/-- Does the first list start with the second? -/
def leadsWith : List Char → List Char → Bool
  | _, [] => true
  | [], _ :: _ => false
  | c :: cs, p :: ps => c == p && leadsWith cs ps

/-- Does the first list contain the second as a contiguous sublist? -/
def charsContain : List Char → List Char → Bool
  | [], pat => pat.isEmpty
  | s@(_ :: rest), pat => leadsWith s pat || charsContain rest pat

/-- Python `sub in s` (substring containment; the empty string is contained
in everything). -/
def pyContains (s sub : String) : Bool := charsContain s.toList sub.toList

/-- Python `s.startswith(p)`. -/
def pyStartsWith (s p : String) : Bool := leadsWith s.toList p.toList

/-- Helper for `pyWords`: accumulates the current word (reversed). -/
def pyWordsGo : List Char → List Char → List (List Char)
  | [], cur => if cur.isEmpty then [] else [cur.reverse]
  | c :: rest, cur =>
    if Char.isWhitespace c then
      if cur.isEmpty then pyWordsGo rest [] else cur.reverse :: pyWordsGo rest []
    else pyWordsGo rest (c :: cur)

/-- Python `str.split()` with no argument: split on whitespace runs,
dropping empty pieces. -/
def pyWords (s : String) : List String := (pyWordsGo s.toList []).map String.mk

/-- Python `l[-n:]`: the last `n` elements (the whole list when shorter). -/
def lastN (n : Nat) (l : List String) : List String := l.drop (l.length - n)

/-- Python `" ".join(l)`. -/
def joinSpace : List String → String
  | [] => ""
  | [w] => w
  | w :: ws => w ++ " " ++ joinSpace ws

/-! ## Keyword heuristics of `ExpertRouter` (`experts/router.py`) -/

/-- `ExpertRouter._is_intersight_query` (router.py lines 240-269). -/
def isIntersightQuery (query : String) : Bool :=
  let q := pyLower query
  if pyContains q "intersight" then true
  else if
      pyContains q "server" ||
      pyContains q "servers" ||
      pyContains q "what servers" ||
      pyContains q "servers in my environment" ||
      pyContains q "servers are running" ||
      (pyContains q "running in my environment" && !(pyContains q "switches")) ||
      pyContains q "ucs" ||
      pyContains q "hx" ||
      pyContains q "hyperflex" ||
      pyContains q "blade" ||
      (pyContains q "rack" && pyContains q "server") ||
      pyContains q "firmware" ||
      (pyContains q "gpu" || pyContains q "gpus") ||
      pyContains q "hardware" then true
  else false

/-- `ExpertRouter._is_ai_pods_query` (router.py lines 271-304). -/
def isAiPodsQuery (query : String) : Bool :=
  let q := pyLower query
  if ["7b", "7 b", "13b", "13 b", "40b", "40 b", "70b", "70 b",
      "billion parameter", "billion parameters", "b model", "b llm"].any
        (fun p => pyContains q p) then true
  else if ["why is", "what is", "how does", "explain",
           "tell me about", "describe", "definition of"].any
        (fun p => pyContains q p) then
    if ["cisco", "ai pod", "ai pods", "llm", "large language model"].any
        (fun p => pyContains q p) then true
    else if ["hardware for llm", "gpu for llm", "infrastructure for llm",
             "server for ai"].any (fun p => pyContains q p) then true
    else false
  else
    ["ai pods", "ai pod", "aipod", "aipods",
     "llm", "large language model", "ml model",
     "machine learning", "deep learning", "neural network",
     "gpu cluster", "ai infrastructure", "ml infrastructure",
     "ai compute", "ml compute", "inference",
     "gpu for", "hardware for", "server for ai", "hardware recommendation",
     "what should i buy", "which pod", "recommendation for llm"].any
      (fun p => pyContains q p)

/-- `ExpertRouter._is_server_inventory_query` (router.py lines 306-321). -/
def isServerInventoryQuery (query : String) : Bool :=
  let q := pyStrip (pyLower query)
  (pyStartsWith q "what" && (pyContains q "environment" || pyContains q "servers")) ||
  (pyContains q "running in " && (pyContains q "environment" || pyContains q "my")) ||
  pyContains q "servers do i have" ||
  pyContains q "in my environment" ||
  (pyContains q "show" && (pyContains q "servers" || pyContains q "infrastructure")) ||
  (pyContains q "list" && (pyContains q "servers" || pyContains q "infrastructure")) ||
  (pyContains q "what's" && pyContains q "running") ||
  (pyContains q "what is" && pyContains q "running") ||
  (pyContains q "deployed" && pyContains q "servers")

/-- `ExpertRouter._is_nexus_dashboard_query` (router.py lines 323-343). -/
def isNexusDashboardQuery (query : String) : Bool :=
  let q := pyLower query
  if pyContains q "nexus dashboard" || pyContains q "ndfc" then true
  else if
      pyContains q "fabric" ||
      (pyContains q "fabrics" && pyContains q "environment") ||
      pyContains q "vlan" ||
      (pyContains q "msd" && pyContains q "association") ||
      (pyContains q "syslog" && pyContains q "network") then true
  else false

/-- `ExpertRouter._is_infrastructure_query` (router.py lines 345-372): the
explicit two-system check returns early, before the fabric/vlan and
server/firmware/gpu exclusions; the switch-pattern check comes last. -/
def isInfrastructureQuery (query : String) : Bool :=
  let q := pyLower query
  if (pyContains q "intersight" && pyContains q "nexus") ||
     (pyContains q "intersight" && pyContains q "dashboard") then true
  else if pyContains q "fabric" || pyContains q "vlan" then false
  else if pyContains q "server" || pyContains q "servers" ||
          pyContains q "firmware" || pyContains q "gpu" then false
  else
    (pyContains q "switches" && pyContains q "environment") ||
    (pyContains q "switches" && pyContains q "running") ||
    (pyContains q "network device" && pyContains q "environment")

/-! ## The classifier `ExpertRouter._determine_expert_with_cot` -/

/-- The `except` branch of `_determine_expert_with_cot` (router.py lines
185-196): the deterministic keyword cascade run when the LLM classification
call raises. -/
def cotKeywordFallback (query : String) : String :=
  if isInfrastructureQuery query then "infrastructure"
  else if pyContains (pyLower query) "intersight" ||
          ["server", "servers", "hardware", "datacenter"].any
            (fun w => pyContains (pyLower query) w) then "intersight"
  else if pyContains (pyLower query) "ai pods" || pyContains (pyLower query) "ai pod" ||
          ["llm", "model", "parameter", "parameters"].any
            (fun w => pyContains (pyLower query) w) ||
          ["7b", "13b", "40b", "70b", "80b"].any
            (fun s => pyContains (pyLower query) s) then "ai_pods"
  else if pyContains (pyLower query) "nexus" || pyContains (pyLower query) "dashboard" ||
          ["fabric", "switch", "network", "telemetry"].any
            (fun w => pyContains (pyLower query) w) then "nexus_dashboard"
  else "general"

/-- `ExpertRouter._determine_expert_with_cot` (router.py lines 140-196).
The LLM call `router_chain.invoke` is an oracle: `some content` when it
returns a reply whose content is `content`, `none` when it raises (any
exception lands in the `except` branch, i.e. `cotKeywordFallback`). -/
def determineExpertWithCot (llmReply : Option String) (query : String) : String :=
  match llmReply with
  | none => cotKeywordFallback query
  | some content =>
    let expertChoice := pyLower (pyStrip content)
    if expertChoice = "intersight" || expertChoice = "ai_pods" ||
       expertChoice = "nexus_dashboard" || expertChoice = "infrastructure" ||
       expertChoice = "general" then expertChoice
    else
      let lastWords := lastN 5 (pyWords expertChoice)
      if lastWords.contains "intersight" then "intersight"
      else if lastWords.contains "ai_pods" ||
              pyContains (joinSpace lastWords) "ai pods" then "ai_pods"
      else if lastWords.contains "nexus_dashboard" ||
              pyContains (joinSpace lastWords) "nexus dashboard" then "nexus_dashboard"
      else if lastWords.contains "infrastructure" then "infrastructure"
      else if lastWords.contains "general" then "general"
      else if isInfrastructureQuery query then "infrastructure"
      else if isServerInventoryQuery query then "intersight"
      else if isNexusDashboardQuery query then "nexus_dashboard"
      else "general"

/-! ## `ExpertRouter.route_and_respond` -/

/-- The router's collaborators, as oracles.  `llmClassify` is the outcome of
`router_chain.invoke` (`none` when it raises, `some content` otherwise);
each expert field is the outcome of that expert's `get_response` on a given
question (`.error msg` when it raises `Exception(msg)`). -/
structure RouterEnv where
  llmClassify : Option String
  intersight : String → Except String String
  aiPods : String → Except String String
  general : String → Except String String
  nexusDashboard : String → Except String String
  infrastructure : String → Except String String

/-- The rephrased question sent to the General Expert when the Intersight
Expert fails (router.py lines 90-92 and 205-207). -/
def intersightFallbackPrompt (query : String) : String :=
  "The user asked '" ++ query ++ "' about Intersight, but I couldn't access the Intersight API. Please provide a general answer."

/-- The rephrased question sent to the General Expert when the Nexus
Dashboard Expert fails (router.py lines 113-115 and 222-224). -/
def nexusFallbackPrompt (query : String) : String :=
  "The user asked '" ++ query ++ "' about Nexus Dashboard, but I couldn't access the Nexus Dashboard API. Please provide a general answer."

/-- The body of the outer `try` of `ExpertRouter.route_and_respond`
(router.py lines 77-134).  Every expert call sits inside its own
`try/except`, so every branch ends in a returned pair; the `Except` type
records that no exception escapes the body in the model. -/
def routeAndRespondInner (env : RouterEnv) (query : String) :
    Except String (String × String) :=
  let expertChoice := determineExpertWithCot env.llmClassify query
  if expertChoice = "intersight" then
    match env.intersight query with
    | .ok r => .ok (r, "Intersight Expert")
    | .error e =>
      match env.general (intersightFallbackPrompt query) with
      | .ok fr =>
        .ok ("Note: Could not connect to Intersight API. Using general knowledge instead.\n\n" ++ fr,
             "General Expert (Fallback)")
      | .error _ => .ok ("I'm sorry, I encountered an error: " ++ e, "System")
  else if expertChoice = "ai_pods" then
    match env.aiPods query with
    | .ok r => .ok (r, "AI Pods Expert")
    | .error e => .ok ("AI Pods Expert Error: " ++ e, "System")
  else if expertChoice = "nexus_dashboard" then
    match env.nexusDashboard query with
    | .ok r => .ok (r, "Nexus Dashboard Expert")
    | .error _ =>
      match env.general (nexusFallbackPrompt query) with
      | .ok fr =>
        .ok ("Note: Could not connect to Nexus Dashboard API. Using general knowledge instead.\n\n" ++ fr,
             "General Expert (Fallback)")
      | .error _ =>
        .ok ("I'm sorry, I encountered multiple errors trying to process your request.", "System")
  else if expertChoice = "infrastructure" then
    match env.infrastructure query with
    | .ok r => .ok (r, "Infrastructure Expert")
    | .error e => .ok ("Infrastructure Expert Error: " ++ e, "System")
  else
    match env.general query with
    | .ok r => .ok (r, "General Expert")
    | .error e => .ok ("General Expert Error: " ++ e, "System")

/-- `ExpertRouter._basic_routing_fallback` (router.py lines 198-238).  Every
branch catches its expert's exception, so the function returns a plain
pair. -/
def basicRoutingFallback (env : RouterEnv) (query : String) : String × String :=
  if isIntersightQuery query then
    match env.intersight query with
    | .ok r => (r, "Intersight Expert")
    | .error _ =>
      match env.general (intersightFallbackPrompt query) with
      | .ok fr =>
        ("Note: Could not connect to Intersight API. Using general knowledge instead.\n\n" ++ fr,
         "General Expert (Fallback)")
      | .error _ =>
        ("I'm sorry, I encountered multiple errors trying to process your request.", "System")
  else if isAiPodsQuery query then
    match env.aiPods query with
    | .ok r => (r, "AI Pods Expert")
    | .error _ => ("I'm sorry, I encountered an error with the AI Pods expert.", "System")
  else if isNexusDashboardQuery query then
    match env.nexusDashboard query with
    | .ok r => (r, "Nexus Dashboard Expert")
    | .error _ =>
      match env.general (nexusFallbackPrompt query) with
      | .ok fr =>
        ("Note: Could not connect to Nexus Dashboard API. Using general knowledge instead.\n\n" ++ fr,
         "General Expert (Fallback)")
      | .error _ =>
        ("I'm sorry, I encountered multiple errors trying to process your request.", "System")
  else if isInfrastructureQuery query then
    match env.infrastructure query with
    | .ok r => (r, "Infrastructure Expert")
    | .error e => ("Infrastructure Expert Error: " ++ e, "System")
  else
    match env.general query with
    | .ok r => (r, "General Expert")
    | .error _ => ("I'm sorry, I encountered an error processing your request.", "System")

/-- `ExpertRouter.route_and_respond` (router.py lines 76-138): the body,
wrapped in the outer `except` that answers any escaped routing exception
with `_basic_routing_fallback`. -/
def routeAndRespond (env : RouterEnv) (query : String) :
    Except String (String × String) :=
  match routeAndRespondInner env query with
  | .ok p => .ok p
  | .error _ => .ok (basicRoutingFallback env query)

/-! ## `ExpertRouter.get_response` (router.py lines 374-404)

This public method references `self._route_question`, a method the class
never defines, and its `except` handler reads the local `expert_name`,
which at that point was never assigned.  The embedding models Python name
resolution explicitly: attribute lookup against the class's attribute
table, and the handler's local read against the locals captured when the
exception was raised. -/

/-- A Python exception as raised by `ExpertRouter.get_response`: the
built-in name-resolution errors, plus an ordinary `Exception` carrying a
message. -/
inductive PyExc where
  | attributeError (attr : String)
  | unboundLocalError (var : String)
  | keyError (key : String)
  | exc (msg : String)
deriving Repr, DecidableEq

/-- The attributes an `ExpertRouter` instance has: the instance attributes
set in `__init__` (router.py lines 19-74) and the methods defined on the
class (lines 76-404).  `_route_question` is not among them. -/
def expertRouterAttrs : List String :=
  ["llm", "experts", "router_prompt", "router_chain",
   "route_and_respond", "_determine_expert_with_cot", "_basic_routing_fallback",
   "_is_intersight_query", "_is_ai_pods_query", "_is_server_inventory_query",
   "_is_nexus_dashboard_query", "_is_infrastructure_query", "get_response"]

/-- Python attribute lookup `self._route_question` on an `ExpertRouter`:
the attribute table has no such entry, so the lookup raises
`AttributeError`. -/
def routeQuestionLookup : Except PyExc (String → Except PyExc String) :=
  if h : expertRouterAttrs.contains "_route_question" = true then
    absurd h (by decide)
  else .error (.attributeError "_route_question")

/-- `self.experts[expert_name]` (router.py lines 28-34 build the dict,
line 382 indexes it). -/
def expertsDict (env : RouterEnv) (name : String) :
    Option (String → Except String String) :=
  if name = "intersight" then some env.intersight
  else if name = "ai_pods" then some env.aiPods
  else if name = "general" then some env.general
  else if name = "nexus_dashboard" then some env.nexusDashboard
  else if name = "infrastructure" then some env.infrastructure
  else none

/-- The `try` block of `ExpertRouter.get_response` (lines 375-394).  The
result pairs any raised exception with the value the local `expert_name`
held when it was raised (`none` = not yet assigned): `_route_question`
fails to resolve before the first assignment runs. -/
def routerGetResponseTry (env : RouterEnv) (question : String) :
    Except (PyExc × Option String) String :=
  match routeQuestionLookup with
  | .error e => .error (e, none)
  | .ok routeQuestion =>
    match routeQuestion question with
    | .error e => .error (e, none)
    | .ok expertName =>
      match expertsDict env expertName with
      | none => .error (.keyError expertName, some expertName)
      | some expert =>
        match expert question with
        | .error msg => .error (.exc msg, some expertName)
        | .ok response => .ok response

/-- `ExpertRouter.get_response` (router.py lines 374-404): the `try` block,
then the `except` handler, whose first statement
`logger.error(f"{expert_name...}")` reads the local `expert_name` — an
`UnboundLocalError` escaping the handler when the local was never
assigned; otherwise the handler falls back to the General Expert. -/
def routerGetResponse (env : RouterEnv) (question : String) :
    Except PyExc String :=
  match routerGetResponseTry env question with
  | .ok s => .ok s
  | .error (e, localExpertName) =>
    match localExpertName with
    | none => .error (.unboundLocalError "expert_name")
    | some _ =>
      match env.general question with
      | .ok r => .ok r
      | .error _ =>
        .ok ("I'm sorry, but I encountered an error while processing your question: " ++
              (match e with
               | .exc msg => msg
               | .attributeError a => a
               | .unboundLocalError v => v
               | .keyError k => k))

/-! ## `tools/infrastructure_api.py` — `InfrastructureAPI` -/

/-- A switch record produced by `IntersightClientTool.get_network_elements`;
fields are `Option` because `_format_switches_response` reads them with
`dict.get(key, 'N/A')` (infrastructure_api.py lines 127-131). -/
structure IntersightSwitch where
  deviceId : Option String
  model : Option String
  serial : Option String
  managementIp : Option String
  version : Option String

/-- A switch record from `NexusDashboardAPI.get_all_switches`; read with
`dict.get(key, 'N/A')` (infrastructure_api.py lines 148-153). -/
structure NexusSwitch where
  deviceName : Option String
  ipAddress : Option String
  serialNumber : Option String
  model : Option String
  status : Option String
  fabricName : Option String

/-- The collaborators of `InfrastructureAPI`: the outcome of each of the
two vendor calls in `get_combined_switches_info`.  `.error msg` covers both
an exception from the call and an error dictionary returned by it — either
way the source records the message under the corresponding `*_error` key
(infrastructure_api.py lines 56-81).  `initFailed` is `some msg` when
either underlying client failed to initialize (lines 26-41). -/
structure InfraApiEnv where
  initFailed : Option String
  intersightElements : Except String (List IntersightSwitch)
  nexusSwitches : Except String (List NexusSwitch)

/-- The combined dictionary built by
`InfrastructureAPI.get_combined_switches_info` (lines 48-87): per source,
either the switch list or the recorded error message. -/
structure CombinedSwitches where
  intersightSwitches : List IntersightSwitch
  nexusDashboardSwitches : List NexusSwitch
  intersightError : Option String
  nexusDashboardError : Option String

/-- `InfrastructureAPI.get_combined_switches_info` (lines 48-87): each
vendor call's failure is caught and stored as an error note; the other
source's data is kept. -/
def getCombinedSwitchesInfo (env : InfraApiEnv) : CombinedSwitches :=
  let (iSw, iErr) :=
    match env.intersightElements with
    | .ok elems => (elems, none)
    | .error e => ([], some e)
  let (nSw, nErr) :=
    match env.nexusSwitches with
    | .ok sws => (sws, none)
    | .error e => ([], some e)
  { intersightSwitches := iSw, nexusDashboardSwitches := nSw,
    intersightError := iErr, nexusDashboardError := nErr }

/-- One Intersight table row (infrastructure_api.py line 133). -/
def intersightSwitchRow (s : IntersightSwitch) : String :=
  "| " ++ s.deviceId.getD "N/A" ++ " | " ++ s.model.getD "N/A" ++ " | " ++
  s.serial.getD "N/A" ++ " | " ++ s.managementIp.getD "N/A" ++ " | " ++
  s.version.getD "N/A" ++ " |\n"

/-- One Nexus Dashboard table row (infrastructure_api.py line 155). -/
def nexusSwitchRow (s : NexusSwitch) : String :=
  "| " ++ s.deviceName.getD "N/A" ++ " | " ++ s.ipAddress.getD "N/A" ++ " | " ++
  s.serialNumber.getD "N/A" ++ " | " ++ s.model.getD "N/A" ++ " | " ++
  s.status.getD "N/A" ++ " | " ++ s.fabricName.getD "N/A" ++ " |\n"

/-- The Intersight section of the combined answer (lines 121-139). -/
def intersightSection (info : CombinedSwitches) : String :=
  if !info.intersightSwitches.isEmpty then
    "## Intersight Network Elements\n\n" ++
    "| Device ID | Model | Serial | Management IP | Version |\n" ++
    "|-----------|-------|--------|---------------|----------|\n" ++
    String.join (info.intersightSwitches.map intersightSwitchRow)
  else
    match info.intersightError with
    | some e =>
      "## Intersight Network Elements\n\n" ++
      "Error retrieving Intersight network elements: " ++ e ++ "\n\n"
    | none =>
      "## Intersight Network Elements\n\n" ++
      "No network elements found in Intersight.\n\n"

/-- The Nexus Dashboard section of the combined answer (lines 142-161). -/
def nexusSection (info : CombinedSwitches) : String :=
  if !info.nexusDashboardSwitches.isEmpty then
    "\n## Nexus Dashboard Switches\n\n" ++
    "| Device Name | IP Address | Serial Number | Model | Status | Fabric |\n" ++
    "|-------------|-----------|--------------|-------|--------|--------|\n" ++
    String.join (info.nexusDashboardSwitches.map nexusSwitchRow)
  else
    match info.nexusDashboardError with
    | some e =>
      "\n## Nexus Dashboard Switches\n\n" ++
      "Error retrieving Nexus Dashboard switches: " ++ e ++ "\n\n"
    | none =>
      "\n## Nexus Dashboard Switches\n\n" ++
      "No switches found in Nexus Dashboard.\n\n"

/-- `InfrastructureAPI._format_switches_response` (lines 113-163).  The
argument is `Except`-typed for the top-level `"error"` key case (line 115),
which `get_combined_switches_info` produces only from its own outer
`except` (line 87). -/
def formatSwitchesResponse (switchesInfo : Except String CombinedSwitches) : String :=
  match switchesInfo with
  | .error e => "Error retrieving switch information: " ++ e
  | .ok info =>
    "### Switches in Your Environment\n\n" ++ intersightSection info ++ nexusSection info

/-- Is the question switch-related (infrastructure_api.py line 99)? -/
def isSwitchRelated (question : String) : Bool :=
  ["switch", "switches", "network device", "network element"].any
    (fun t => pyContains (pyLower question) t)

/-- `InfrastructureAPI.query` (lines 89-111): total — every failure is
already a string answer. -/
def infrastructureApiQuery (env : InfraApiEnv) (question : String) : String :=
  match env.initFailed with
  | some msg => "Error: Infrastructure API initialization failed. " ++ msg
  | none =>
    if isSwitchRelated question then
      formatSwitchesResponse (.ok (getCombinedSwitchesInfo env))
    else
      "Please ask a question about switches or network devices in your environment. For other infrastructure queries, please use the specific expert (Intersight or Nexus Dashboard)."

/-! ## `experts/infrastructure_expert.py` — `InfrastructureExpert` -/

/-- `InfrastructureExpert._create_prompt` (lines 70-91): the system prompt
with the query and API response substituted. -/
def infraCreatePrompt (query apiResponse : String) : String :=
  "\n        You are a Cisco Infrastructure expert. Use your knowledge and the API response to answer the question.\n\n        Question: " ++
  query ++ "\n        API Response: " ++ apiResponse ++
  "\n\n        IMPORTANT GUIDELINES:\n        1. If the API response contains a formatted table or list, present this information directly without additional analysis.\n        2. For switch-specific queries, focus on the information listed in the API response.\n        3. If the API response contains both Intersight and Nexus Dashboard data, include information from both sources.\n        4. Maintain the structure in your response, such as separating Intersight and Nexus Dashboard information.\n        5. Provide factual information based on the API response rather than speculative analysis.\n\n        Provide a detailed and technical response:\n        "

/-- The collaborators of `InfrastructureExpert.get_response`: the
infrastructure API (modelled above) and the LLM call
`self.llm([SystemMessage(prompt), HumanMessage(question)])`, an oracle of
the prompt and the question. -/
structure InfraExpertEnv where
  api : InfraApiEnv
  llm : String → String → Except String String

/-- `InfrastructureExpert.get_response` (lines 38-68).  Note the `except`
branch RETURNS an error string (`.ok`), it does not re-raise — unlike the
other experts. -/
def infrastructureExpertGetResponse (env : InfraExpertEnv) (question : String) :
    Except String String :=
  let apiResponse := infrastructureApiQuery env.api question
  match env.llm (infraCreatePrompt question apiResponse) question with
  | .ok content => .ok content
  | .error e => .ok ("Error processing infrastructure query: " ++ e)

/-! ## Server-name extraction (`experts/intersight_expert.py` lines 49-73,
duplicated in `tools/intersight_api.py` lines 1193-1218)

The four regular expressions tried in order over the lowercased question,
then the positional fallback (the word right after a word equal to
`server`).  Each pattern is a sequence of literal alternatives, `\s+` and
the character class `[a-zA-Z0-9_\-]+`, modelled by hand; `search` scans
leftmost, and the greedy `+` is exact because name characters and
whitespace are disjoint. -/

/-- The regex class `[a-zA-Z0-9_\-]`. -/
def isNameChar (c : Char) : Bool := c.isAlpha || c.isDigit || c == '_' || c == '-'

/-- Match a literal at the head of the input, returning the rest. -/
def eatLit : List Char → List Char → Option (List Char)
  | [], s => some s
  | _ :: _, [] => none
  | p :: ps, c :: cs => if c == p then eatLit ps cs else none

/-- Match `\s+` at the head of the input. -/
def eatWs1 : List Char → Option (List Char)
  | [] => none
  | c :: cs =>
    if Char.isWhitespace c then some (cs.dropWhile Char.isWhitespace) else none

/-- Match `([a-zA-Z0-9_\-]+)` greedily, returning the capture and rest. -/
def eatName (s : List Char) : Option (String × List Char) :=
  let name := s.takeWhile isNameChar
  if name.isEmpty then none else some (String.mk name, s.drop name.length)

/-- Pattern 1 anchored at a position: `(?:for|on)\s+server\s+([a-zA-Z0-9_\-]+)`. -/
def pat1At (s : List Char) : Option String := do
  let s ← (eatLit "for".toList s) <|> (eatLit "on".toList s)
  let s ← eatWs1 s
  let s ← eatLit "server".toList s
  let s ← eatWs1 s
  let (n, _) ← eatName s
  pure n

/-- Pattern 2 anchored at a position: `server\s+([a-zA-Z0-9_\-]+)\s+(?:what|which)`. -/
def pat2At (s : List Char) : Option String := do
  let s ← eatLit "server".toList s
  let s ← eatWs1 s
  let (n, s) ← eatName s
  let s ← eatWs1 s
  let _ ← (eatLit "what".toList s) <|> (eatLit "which".toList s)
  pure n

/-- Pattern 3 anchored at a position: `(?:update|upgrade)\s+([a-zA-Z0-9_\-]+)\s+to`. -/
def pat3At (s : List Char) : Option String := do
  let s ← (eatLit "update".toList s) <|> (eatLit "upgrade".toList s)
  let s ← eatWs1 s
  let (n, s) ← eatName s
  let s ← eatWs1 s
  let _ ← eatLit "to".toList s
  pure n

/-- Pattern 4 anchored at a position: `server\s+([a-zA-Z0-9_\-]+)`. -/
def pat4At (s : List Char) : Option String := do
  let s ← eatLit "server".toList s
  let s ← eatWs1 s
  let (n, _) ← eatName s
  pure n

/-- `re.search`: try the anchored pattern at each position, leftmost first. -/
def searchPat (f : List Char → Option String) : List Char → Option String
  | [] => f []
  | s@(_ :: rest) =>
    match f s with
    | some n => some n
    | none => searchPat f rest

/-- The regex class `[a-z0-9_\-]` of the positional fallback. -/
def isLowerNameChar (c : Char) : Bool :=
  c.isLower || c.isDigit || c == '_' || c == '-'

/-- The positional fallback (intersight_expert.py lines 67-73): the first
word standing right after a word equal to `server` and fully matching
`^[a-z0-9_\-]+$`. -/
def positionalServerName : List String → Option String
  | [] => none
  | [_] => none
  | w1 :: w2 :: rest =>
    if w1 = "server" && !w2.toList.isEmpty && w2.toList.all isLowerNameChar then
      some w2
    else positionalServerName (w2 :: rest)

/-- The whole extraction over the lowercased question: the four regex
patterns in order (first pattern matching anywhere wins), then the
positional fallback.  (`intersight_api.py` guards the fallback with
`"server" in question_lower`, `intersight_expert.py` does not; the guard is
redundant — a positional match requires a word equal to `server`.) -/
def extractServerName (questionLower : String) : Option String :=
  let cs := questionLower.toList
  match searchPat pat1At cs with
  | some n => some n
  | none =>
    match searchPat pat2At cs with
    | some n => some n
    | none =>
      match searchPat pat3At cs with
      | some n => some n
      | none =>
        match searchPat pat4At cs with
        | some n => some n
        | none => positionalServerName (pyWords questionLower)

/-! ## `tools/intersight_api.py` — `IntersightAPI.query` -/

/-- The server-inventory pattern check opening `IntersightAPI.query`
(intersight_api.py lines 1161-1164). -/
def serverInventoryPatternHit (q : String) : Bool :=
  ["what servers", "server inventory", "list of servers",
   "servers in my", "my servers", "all servers"].any (fun p => pyContains q p)

/-- A server record from `IntersightClientTool.get_servers`; fields are
`Option` because `_format_servers_response` reads them with
`dict.get(key, 'N/A')` (intersight_api.py line 1267). -/
structure ServerRecord where
  name : Option String
  model : Option String
  serial : Option String
  powerState : Option String
  firmware : Option String

/-- One server-inventory table row (intersight_api.py line 1267). -/
def serverRow (s : ServerRecord) : String :=
  "| " ++ s.name.getD "N/A" ++ " | " ++ s.model.getD "N/A" ++ " | " ++
  s.serial.getD "N/A" ++ " | " ++ s.powerState.getD "N/A" ++ " | " ++
  s.firmware.getD "N/A" ++ " |\n"

/-- `IntersightAPI._format_servers_response` (lines 1258-1269). -/
def formatServersResponse (servers : List ServerRecord) : String :=
  if servers.isEmpty then "No servers found in inventory"
  else
    "### Server Inventory\n\n" ++
    "| Name | Model | Serial | Power State | Firmware |\n" ++
    "|------|--------|--------|-------------|----------|\n" ++
    String.join (servers.map serverRow)

/-- The collaborators of `IntersightAPI.query` (lines 1151-1256).
`getServers` is the vendor call behind the server-inventory branch; the
remaining branches pair a vendor call with its pure formatter, neither of
which any claim touches, so each is abstracted as one oracle producing the
branch's answer string (`.error` = the vendor call raised).
`serverFirmwareBranch` abstracts lines 1220-1225 (including the
error-dictionary sub-case), a branch that is unreachable: the `firmware`
check at line 1168 already returned. -/
structure IntersightApiEnv where
  initFailed : Option String
  getServers : Except String (List ServerRecord)
  firmwareUpgradeReport : Except String String
  firmwareStatusReport : Except String String
  gpuReport : Except String String
  vmReport : Except String String
  serverFirmwareBranch : String → Except String String
  networkReport : Except String String
  healthReport : Except String String
  deviceReport : Except String String
  profileReport : Except String String

/-- `IntersightAPI.query` (lines 1151-1256): the initialization-failure
check, then the keyword cascade inside one `try` whose `except` turns any
exception into an `Error processing query:` string — the function never
raises. -/
def intersightApiQuery (env : IntersightApiEnv) (question : String) : String :=
  match env.initFailed with
  | some msg =>
    "Error: Intersight API initialization failed - " ++ msg ++
    ". Please check your API credentials."
  | none =>
    let q := pyLower question
    let body : Except String String :=
      if serverInventoryPatternHit q then
        (env.getServers).map formatServersResponse
      else if pyContains q "firmware" then
        if ["upgrade", "can be upgraded", "available upgrade",
            "newer firmware", "update firmware"].any (fun p => pyContains q p) then
          env.firmwareUpgradeReport
        else env.firmwareStatusReport
      else if pyContains q "gpu" || pyContains q "gpus" then env.gpuReport
      else if ["vm", "virtual machine", "virtual machines", "vms"].any
            (fun p => pyContains q p) then env.vmReport
      else if pyContains q "firmware" && (extractServerName q).isSome then
        -- lines 1190-1225, unreachable behind the earlier firmware return
        env.serverFirmwareBranch ((extractServerName q).getD "")
      else if ["network", "vlan", "uplink", "connectivity", "interface"].any
            (fun p => pyContains q p) then env.networkReport
      else if ["health", "alert", "status", "condition"].any
            (fun p => pyContains q p) then env.healthReport
      else if ["device", "connector", "connection", "registered"].any
            (fun p => pyContains q p) then env.deviceReport
      else if ["profile", "profiles", "template", "templates", "configuration"].any
            (fun p => pyContains q p) then env.profileReport
      else
        .ok "Please specify what information you'd like to know about your Cisco Intersight infrastructure (servers, network, health status, virtual machines, device connectors, firmware updates, or server profiles)."
    match body with
    | .ok s => s
    | .error e => "Error processing query: " ++ e

/-! ## `experts/intersight_expert.py` — `IntersightExpert` -/

/-- A firmware-information dictionary from
`client.get_firmware_for_server`: `hasErrorKey` models `"error" in
firmware_info`; the other fields are read with `dict.get` defaults in
`_format_firmware_response`. -/
structure FirmwarePackage where
  name : Option String
  version : Option String
  bundleType : Option String
  platformType : Option String

structure FirmwareInfo where
  hasErrorKey : Bool
  serverName : Option String
  serverModel : Option String
  currentFirmware : Option String
  compatibleFirmware : List FirmwarePackage

/-- `IntersightExpert._format_firmware_response` (lines 120-144). -/
def formatFirmwareResponse (info : FirmwareInfo) : String :=
  let header :=
    "## Available Firmware Updates for " ++ info.serverName.getD "N/A" ++ "\n\n" ++
    "**Server Model:** " ++ info.serverModel.getD "N/A" ++ "\n" ++
    "**Current Firmware:** " ++ info.currentFirmware.getD "Unknown" ++ "\n\n"
  if info.compatibleFirmware.isEmpty then
    header ++ "No compatible firmware updates were found for this server model."
  else
    header ++ "### Compatible Firmware Packages\n\n" ++
    "| Firmware Name | Version | Bundle Type | Platform |\n" ++
    "|--------------|---------|-------------|----------|\n" ++
    String.join (info.compatibleFirmware.map fun f =>
      "| " ++ f.name.getD "N/A" ++ " | " ++ f.version.getD "N/A" ++ " | " ++
      f.bundleType.getD "N/A" ++ " | " ++ f.platformType.getD "N/A" ++ " |\n")

/-- `any(term in question.lower() for term in ["firmware", "update",
"upgrade"])` (intersight_expert.py line 45). -/
def isFirmwareQuery (question : String) : Bool :=
  ["firmware", "update", "upgrade"].any (fun t => pyContains (pyLower question) t)

/-- The collaborators of `IntersightExpert.get_response`:
`hasGetFirmwareForServer` is the `hasattr(self.api.client,
'get_firmware_for_server')` check, `getFirmwareForServer` that method,
`chainInvoke` the LLM narration call `self.chain.invoke({question,
api_response})` (returning its content). -/
structure IntersightExpertEnv where
  api : IntersightApiEnv
  hasGetFirmwareForServer : Bool
  getFirmwareForServer : String → Except String FirmwareInfo
  chainInvoke : String → String → Except String String

/-- `IntersightExpert.get_response` (lines 42-118): the direct firmware
path (whose own failures are caught and the normal flow continued), then
the API query, the formatted-firmware short-circuit, and otherwise the LLM
narration; the outer `except` re-raises with the `Intersight Expert error:`
prefix. -/
def intersightExpertGetResponse (env : IntersightExpertEnv) (question : String) :
    Except String String :=
  let firmwareQ := isFirmwareQuery question
  let serverName : Option String :=
    if firmwareQ && pyContains (pyLower question) "server" then
      extractServerName (pyLower question)
    else none
  let direct : Option String :=
    match serverName with
    | some n =>
      if env.hasGetFirmwareForServer then
        match env.getFirmwareForServer n with
        | .ok info =>
          if !info.hasErrorKey then some (formatFirmwareResponse info) else none
        | .error _ => none
      else none
    | none => none
  match direct with
  | some r => .ok r
  | none =>
    let apiResponse := intersightApiQuery env.api question
    if firmwareQ && serverName.isSome &&
        pyContains apiResponse "## Available Firmware Updates for" then
      .ok apiResponse
    else
      match env.chainInvoke question apiResponse with
      | .ok content => .ok content
      | .error e => .error ("Intersight Expert error: " ++ e)

/-! ## The remaining experts -/

/-- `GeneralExpert.get_response` (general_expert.py lines 29-44): one LLM
call; an exception is re-raised with the `General Expert error:` prefix. -/
def generalExpertGetResponse (llm : String → Except String String)
    (question : String) : Except String String :=
  match llm question with
  | .ok content => .ok content
  | .error e => .error ("General Expert error: " ++ e)

/-- The collaborators of `AIPodExpert.get_response`: the PDF retrieval
(`pdf_loader.get_relevant_context`, covering also the diagnostic
vector-store inspection on lines 51-54, which only logs) and the LLM
chain. -/
structure AiPodsExpertEnv where
  getRelevantContext : String → Except String String
  chainInvoke : String → String → Except String String

/-- `AIPodExpert.get_response` (ai_pods_expert.py lines 46-82): retrieval,
then the LLM; any exception re-raised with the `AI Pods Expert error:`
prefix. -/
def aiPodsExpertGetResponse (env : AiPodsExpertEnv) (question : String) :
    Except String String :=
  match env.getRelevantContext question with
  | .error e => .error ("AI Pods Expert error: " ++ e)
  | .ok context =>
    match env.chainInvoke question context with
    | .ok content => .ok content
    | .error e => .error ("AI Pods Expert error: " ++ e)

/-- `NexusDashboardExpert._handle_api_initialization_error` (lines 60-74). -/
def nexusHandleApiInitError (errorMessage : String) : String :=
  "I'm unable to connect to the Cisco Nexus Dashboard at this time. " ++
  "This could be due to one of the following reasons:\n\n" ++
  "1. The Nexus Dashboard credentials are not properly configured in the environment variables\n" ++
  "2. The Nexus Dashboard instance is not reachable from this server\n" ++
  "3. The Nexus Dashboard API is experiencing issues\n\n" ++
  "To resolve this issue, please check:\n" ++
  "- That the NEXUS_DASHBOARD_URL, NEXUS_DASHBOARD_USERNAME, and NEXUS_DASHBOARD_PASSWORD " ++
  "environment variables are correctly set\n" ++
  "- That the Nexus Dashboard instance is running and accessible\n" ++
  "- That the credentials provided have sufficient permissions\n\n" ++
  "Technical details: " ++ errorMessage

/-- The collaborators of `NexusDashboardExpert.get_response`. -/
structure NexusExpertEnv where
  apiQuery : String → Except String String
  chainInvoke : String → String → Except String String

/-- `NexusDashboardExpert.get_response` (nexus_dashboard_expert.py lines
39-58): API query, the initialization-error short-circuit, then the LLM;
any exception re-raised with the `Nexus Dashboard Expert error:` prefix. -/
def nexusDashboardExpertGetResponse (env : NexusExpertEnv) (question : String) :
    Except String String :=
  match env.apiQuery question with
  | .error e => .error ("Nexus Dashboard Expert error: " ++ e)
  | .ok apiResponse =>
    if pyContains apiResponse "Error:" &&
        pyContains apiResponse "initialization failed" then
      .ok (nexusHandleApiInitError apiResponse)
    else
      match env.chainInvoke question apiResponse with
      | .ok r => .ok r
      | .error e => .error ("Nexus Dashboard Expert error: " ++ e)

/-! ## Spec-side predicates and concrete environments used by witnesses -/

/-- The Infrastructure heuristic as C4's spec sentence words it (for
comparison with the source's `isInfrastructureQuery`): two or more of
{intersight, nexus, dashboard} together, or switches/network-device with
environment/running, and not fabric/vlan, and not server/firmware/gpu. -/
def specInfraPredicate (query : String) : Bool :=
  let q := pyLower query
  let pairMentions :=
    (if pyContains q "intersight" then 1 else 0) +
    (if pyContains q "nexus" then 1 else 0) +
    (if pyContains q "dashboard" then 1 else 0)
  (decide (2 ≤ pairMentions) ||
    ((pyContains q "switches" || pyContains q "network device") &&
     (pyContains q "environment" || pyContains q "running"))) &&
  !(pyContains q "fabric" || pyContains q "vlan") &&
  !(pyContains q "server" || pyContains q "firmware" || pyContains q "gpu")

/-- The end-to-end server-inventory question of C8. -/
def serverInventoryQuestion : String := "What servers do I have in my environment?"

/-- A router environment whose Intersight expert always raises. -/
def c3Env : RouterEnv where
  llmClassify := some "intersight"
  intersight := fun _ => .error "Intersight API unreachable"
  aiPods := fun _ => .ok "a"
  general := fun _ => .ok "GENERAL ANSWER"
  nexusDashboard := fun _ => .ok "n"
  infrastructure := fun _ => .ok "i"

/-- A Nexus Dashboard switch used by the C6 witness. -/
def c6Switch : NexusSwitch where
  deviceName := some "leaf-1"
  ipAddress := some "10.0.0.1"
  serialNumber := some "FDO1"
  model := some "N9K-C93180YC"
  status := some "normal"
  fabricName := some "fab1"

/-- An infrastructure API whose Intersight side fails while the Nexus side
returns one switch. -/
def c6Env : InfraApiEnv where
  initFailed := none
  intersightElements := .error "Intersight API timeout"
  nexusSwitches := .ok [c6Switch]

/-- An Infrastructure Expert whose LLM call always raises (its API layer
failed to initialize as well). -/
def c7InfraEnv : InfraExpertEnv where
  api := { initFailed := some "credentials missing",
           intersightElements := .ok [], nexusSwitches := .ok [] }
  llm := fun _ _ => .error "LLM backend unreachable"

/-- A General Expert LLM that raises. -/
def c7Llm : String → Except String String := fun _ => .error "timeout"

/-- An AI Pods Expert whose retrieval raises. -/
def c7AiPodsEnv : AiPodsExpertEnv where
  getRelevantContext := fun _ => .error "vector store down"
  chainInvoke := fun _ _ => .ok "unused"

/-- A Nexus Dashboard Expert whose API call raises. -/
def c7NexusEnv : NexusExpertEnv where
  apiQuery := fun _ => .error "ND unreachable"
  chainInvoke := fun _ _ => .ok "unused"

/-- An Intersight Expert whose LLM narration call raises. -/
def c7IntersightEnv : IntersightExpertEnv where
  api := { initFailed := none, getServers := .ok [],
           firmwareUpgradeReport := .ok "", firmwareStatusReport := .ok "",
           gpuReport := .ok "", vmReport := .ok "",
           serverFirmwareBranch := fun _ => .ok "",
           networkReport := .ok "", healthReport := .ok "",
           deviceReport := .ok "", profileReport := .ok "" }
  hasGetFirmwareForServer := true
  getFirmwareForServer := fun _ => .error "unused"
  chainInvoke := fun _ _ => .error "LLM down"

/-- A server record used by the C8 environment. -/
def c8Server : ServerRecord where
  name := some "web-01"
  model := some "UCSX-210C-M6"
  serial := some "FCH1"
  powerState := some "on"
  firmware := some "4.2(3a)"

/-- An Intersight Expert over a healthy API whose LLM narration returns a
recognizable string. -/
def c8Env : IntersightExpertEnv where
  api := { initFailed := none, getServers := .ok [c8Server],
           firmwareUpgradeReport := .ok "", firmwareStatusReport := .ok "",
           gpuReport := .ok "", vmReport := .ok "",
           serverFirmwareBranch := fun _ => .ok "",
           networkReport := .ok "", healthReport := .ok "",
           deviceReport := .ok "", profileReport := .ok "" }
  hasGetFirmwareForServer := true
  getFirmwareForServer := fun _ => .error "unused"
  chainInvoke := fun _ _ => .ok "LLM NARRATION OF THE TABLE"

/-! ## Claims -/

/-- C1: for every question string, `ExpertRouter.route_and_respond(question)`
returns a pair (answer text, expert label) and never propagates an
exception to its caller, even when the LLM classification call and every
Expert's `get_response` raise: every failure is caught inside the router
and resolved to some fallback answer pair. -/
theorem routeAndRespond_never_raises (env : RouterEnv) (query : String) :
    ∃ p : String × String, routeAndRespond env query = .ok p := by
  cases h : routeAndRespondInner env query with
  | ok p => exact ⟨p, by simp [routeAndRespond, h]⟩
  | error e => exact ⟨basicRoutingFallback env query, by simp [routeAndRespond, h]⟩

/-- C2: classifier totality — for every input string (empty included) and
every LLM outcome, `_determine_expert_with_cot` returns one of the five
expert identifiers; and when the LLM classification call raises (`none`),
the result is exactly the deterministic keyword cascade of its `except`
branch over the lowercased question. -/
theorem determineExpert_total (llmReply : Option String) (query : String) :
    determineExpertWithCot llmReply query ∈
      (["intersight", "ai_pods", "nexus_dashboard", "infrastructure", "general"] : List String) ∧
    determineExpertWithCot none query = cotKeywordFallback query := by
  refine ⟨?_, rfl⟩
  cases llmReply with
  | none =>
    show cotKeywordFallback query ∈ _
    unfold cotKeywordFallback
    repeat' split
    all_goals simp
  | some content =>
    simp only [determineExpertWithCot]
    split
    case isTrue h =>
      simp only [Bool.or_eq_true, decide_eq_true_eq] at h
      rcases h with ((((h | h) | h) | h) | h) <;> simp [h]
    case isFalse h =>
      repeat' split
      all_goals simp

/-- C3: Intersight failure chain — when routing selects the Intersight
Expert and its `get_response` raises, the router re-invokes the General
Expert on the rephrased question disclosing the failure and labels the
answer exactly `General Expert (Fallback)`; and when that fallback call
itself raises, the router returns the apology string (carrying the
original error) with label `System`. -/
theorem intersight_failure_chain (env : RouterEnv) (query e : String)
    (hsel : determineExpertWithCot env.llmClassify query = "intersight")
    (hfail : env.intersight query = .error e) :
    (∀ fr, env.general (intersightFallbackPrompt query) = .ok fr →
      routeAndRespond env query =
        .ok ("Note: Could not connect to Intersight API. Using general knowledge instead.\n\n" ++ fr,
             "General Expert (Fallback)")) ∧
    (∀ e2, env.general (intersightFallbackPrompt query) = .error e2 →
      routeAndRespond env query =
        .ok ("I'm sorry, I encountered an error: " ++ e, "System")) := by
  constructor
  · intro fr hok
    simp [routeAndRespond, routeAndRespondInner, hsel, hfail, hok]
  · intro e2 herr
    simp [routeAndRespond, routeAndRespondInner, hsel, hfail, herr]

/-- C3 witness: the fallback branch taken at a concrete environment. -/
theorem intersight_failure_chain_witness :
    routeAndRespond c3Env "show my ucs servers" =
      .ok ("Note: Could not connect to Intersight API. Using general knowledge instead.\n\n" ++
             "GENERAL ANSWER",
           "General Expert (Fallback)") :=
  (intersight_failure_chain c3Env "show my ucs servers" "Intersight API unreachable"
      (by decide) rfl).1 "GENERAL ANSWER" rfl

/-- C4 counterexample: the question `nexus dashboard` mentions two of
{intersight, nexus, dashboard} and none of the veto terms, so the claimed
predicate holds, yet the source's heuristic does not classify it as
Infrastructure (the source only pairs `intersight` with `nexus` or
`dashboard`, never `nexus` with `dashboard`). -/
theorem infra_heuristic_cex :
    specInfraPredicate "nexus dashboard" = true ∧
    isInfrastructureQuery "nexus dashboard" = false ∧
    cotKeywordFallback "nexus dashboard" = "nexus_dashboard" := by decide

/-- C4 amended: the heuristic classifies a question as Infrastructure
exactly when it mentions intersight together with nexus or with dashboard
(a branch checked first and subject to no veto), or else it mentions none
of fabric/vlan, none of server/servers/firmware/gpu, and mentions switches
together with environment or with running, or network device together with
environment; a pair of mentions without intersight (such as nexus with
dashboard) does not count. -/
theorem infra_heuristic_amended (query : String) :
    isInfrastructureQuery query =
      (((pyContains (pyLower query) "intersight" && pyContains (pyLower query) "nexus") ||
        (pyContains (pyLower query) "intersight" && pyContains (pyLower query) "dashboard")) ||
       (!(pyContains (pyLower query) "fabric" || pyContains (pyLower query) "vlan") &&
        !(pyContains (pyLower query) "server" || pyContains (pyLower query) "servers" ||
          pyContains (pyLower query) "firmware" || pyContains (pyLower query) "gpu") &&
        ((pyContains (pyLower query) "switches" && pyContains (pyLower query) "environment") ||
         (pyContains (pyLower query) "switches" && pyContains (pyLower query) "running") ||
         (pyContains (pyLower query) "network device" && pyContains (pyLower query) "environment")))) := by
  simp only [isInfrastructureQuery]
  cases h1 : (pyContains (pyLower query) "intersight" && pyContains (pyLower query) "nexus") ||
      (pyContains (pyLower query) "intersight" && pyContains (pyLower query) "dashboard") <;>
    cases h2 : pyContains (pyLower query) "fabric" || pyContains (pyLower query) "vlan" <;>
      cases h3 : pyContains (pyLower query) "server" || pyContains (pyLower query) "servers" ||
          pyContains (pyLower query) "firmware" || pyContains (pyLower query) "gpu" <;>
        simp [h1, h2, h3]

/-- C5 counterexample: a question containing `switches`, `environment` and
`server` for which the Infrastructure keyword predicate is nevertheless
true — the explicit intersight-with-nexus mention is checked before the
server veto, so the veto never runs. -/
theorem server_veto_cex :
    pyContains (pyLower "do intersight and nexus switches in my environment reach the server") "switches" = true ∧
    pyContains (pyLower "do intersight and nexus switches in my environment reach the server") "environment" = true ∧
    pyContains (pyLower "do intersight and nexus switches in my environment reach the server") "server" = true ∧
    isInfrastructureQuery "do intersight and nexus switches in my environment reach the server" = true ∧
    cotKeywordFallback "do intersight and nexus switches in my environment reach the server" =
      "infrastructure" := by
  decide

/-- C5 amended: for every question containing `switches`, `environment` and
`server` that does not mention intersight together with nexus or with
dashboard, the server term makes the Infrastructure keyword predicate
false and the Intersight keyword predicate true. -/
theorem server_veto_amended (query : String)
    (hsw : pyContains (pyLower query) "switches" = true)
    (henv : pyContains (pyLower query) "environment" = true)
    (hsrv : pyContains (pyLower query) "server" = true)
    (hpair : ((pyContains (pyLower query) "intersight" && pyContains (pyLower query) "nexus") ||
              (pyContains (pyLower query) "intersight" && pyContains (pyLower query) "dashboard")) = false) :
    isInfrastructureQuery query = false ∧ isIntersightQuery query = true := by
  constructor
  · simp [isInfrastructureQuery, hpair, hsrv]
  · simp [isIntersightQuery, hsrv]

/-- C5 witness: the amended statement at a concrete question. -/
theorem server_veto_amended_witness :
    isInfrastructureQuery "are the switches in my environment connected to the server" = false ∧
    isIntersightQuery "are the switches in my environment connected to the server" = true :=
  server_veto_amended "are the switches in my environment connected to the server"
    (by decide) (by decide) (by decide) (by decide)

/-- C6: Infrastructure partial answer — on a switch-related query with the
API initialized, when one vendor source fails and the other returns data,
the answer is still produced, is composed of both labeled sections, the
failed source's section is the inline `Error retrieving ...` note, and the
healthy source's section carries its tabular data. -/
theorem infra_partial_answer (env : InfraApiEnv) (question : String)
    (hinit : env.initFailed = none)
    (hsw : isSwitchRelated question = true) :
    (∀ e sws, env.intersightElements = .error e → env.nexusSwitches = .ok sws →
      infrastructureApiQuery env question =
        "### Switches in Your Environment\n\n" ++
          intersightSection (CombinedSwitches.mk [] sws (some e) none) ++
          nexusSection (CombinedSwitches.mk [] sws (some e) none) ∧
      intersightSection (CombinedSwitches.mk [] sws (some e) none) =
        "## Intersight Network Elements\n\n" ++
          "Error retrieving Intersight network elements: " ++ e ++ "\n\n" ∧
      (sws.isEmpty = false →
        nexusSection (CombinedSwitches.mk [] sws (some e) none) =
          "\n## Nexus Dashboard Switches\n\n" ++
            "| Device Name | IP Address | Serial Number | Model | Status | Fabric |\n" ++
            "|-------------|-----------|--------------|-------|--------|--------|\n" ++
            String.join (sws.map nexusSwitchRow))) ∧
    (∀ elems e, env.intersightElements = .ok elems → env.nexusSwitches = .error e →
      infrastructureApiQuery env question =
        "### Switches in Your Environment\n\n" ++
          intersightSection (CombinedSwitches.mk elems [] none (some e)) ++
          nexusSection (CombinedSwitches.mk elems [] none (some e)) ∧
      nexusSection (CombinedSwitches.mk elems [] none (some e)) =
        "\n## Nexus Dashboard Switches\n\n" ++
          "Error retrieving Nexus Dashboard switches: " ++ e ++ "\n\n" ∧
      (elems.isEmpty = false →
        intersightSection (CombinedSwitches.mk elems [] none (some e)) =
          "## Intersight Network Elements\n\n" ++
            "| Device ID | Model | Serial | Management IP | Version |\n" ++
            "|-----------|-------|--------|---------------|----------|\n" ++
            String.join (elems.map intersightSwitchRow))) := by
  constructor
  · intro e sws hie hns
    refine ⟨?_, ?_, ?_⟩
    · simp [infrastructureApiQuery, hinit, hsw, formatSwitchesResponse,
            getCombinedSwitchesInfo, hie, hns]
    · simp [intersightSection]
    · intro hne
      simp [nexusSection, hne]
  · intro elems e hie hns
    refine ⟨?_, ?_, ?_⟩
    · simp [infrastructureApiQuery, hinit, hsw, formatSwitchesResponse,
            getCombinedSwitchesInfo, hie, hns]
    · simp [nexusSection]
    · intro hne
      simp [intersightSection, hne]

/-- C6 witness: the spec's end-to-end question at the concrete environment
above — one section holds the error note, the other the data. -/
theorem infra_partial_answer_witness :
    infrastructureApiQuery c6Env "Compare Intersight and Nexus Dashboard switches in my environment" =
      "### Switches in Your Environment\n\n" ++
        intersightSection (CombinedSwitches.mk [] [c6Switch] (some "Intersight API timeout") none) ++
        nexusSection (CombinedSwitches.mk [] [c6Switch] (some "Intersight API timeout") none) ∧
    intersightSection (CombinedSwitches.mk [] [c6Switch] (some "Intersight API timeout") none) =
      "## Intersight Network Elements\n\n" ++
        "Error retrieving Intersight network elements: " ++ "Intersight API timeout" ++ "\n\n" ∧
    nexusSection (CombinedSwitches.mk [] [c6Switch] (some "Intersight API timeout") none) =
      "\n## Nexus Dashboard Switches\n\n" ++
        "| Device Name | IP Address | Serial Number | Model | Status | Fabric |\n" ++
        "|-------------|-----------|--------------|-------|--------|--------|\n" ++
        String.join ([c6Switch].map nexusSwitchRow) :=
  have h := (infra_partial_answer c6Env
      "Compare Intersight and Nexus Dashboard switches in my environment"
      rfl (by decide)).1 "Intersight API timeout" [c6Switch] rfl rfl
  ⟨h.1, h.2.1, h.2.2 rfl⟩

/-- C7 counterexample: the Infrastructure Expert's `get_response` does not
signal its failure by raising — with its LLM call raising it RETURNS the
error string as the answer, so the router's per-kind fallback policy never
sees a failure. -/
theorem expert_failure_signal_cex :
    infrastructureExpertGetResponse c7InfraEnv "show the switches in my environment" =
      .ok ("Error processing infrastructure query: LLM backend unreachable") := by
  rfl

/-- C7 amended: the General, AI Pods, Nexus Dashboard and Intersight
experts signal failure by re-raising (with the expert's name prefixed to
the message); the Infrastructure Expert does not — it catches every
failure and returns `Error processing infrastructure query: ...` as an
ordinary answer string. -/
theorem expert_failure_signal_amended :
    (∀ (llm : String → Except String String) question e, llm question = .error e →
      generalExpertGetResponse llm question = .error ("General Expert error: " ++ e)) ∧
    (∀ (env : AiPodsExpertEnv) question e, env.getRelevantContext question = .error e →
      aiPodsExpertGetResponse env question = .error ("AI Pods Expert error: " ++ e)) ∧
    (∀ (env : NexusExpertEnv) question e, env.apiQuery question = .error e →
      nexusDashboardExpertGetResponse env question = .error ("Nexus Dashboard Expert error: " ++ e)) ∧
    (∀ (env : IntersightExpertEnv) question e, isFirmwareQuery question = false →
      env.chainInvoke question (intersightApiQuery env.api question) = .error e →
      intersightExpertGetResponse env question = .error ("Intersight Expert error: " ++ e)) ∧
    (∀ (env : InfraExpertEnv) question e,
      env.llm (infraCreatePrompt question (infrastructureApiQuery env.api question)) question = .error e →
      infrastructureExpertGetResponse env question = .ok ("Error processing infrastructure query: " ++ e)) := by
  refine ⟨?_, ?_, ?_, ?_, ?_⟩
  · intro llm question e h
    simp [generalExpertGetResponse, h]
  · intro env question e h
    simp [aiPodsExpertGetResponse, h]
  · intro env question e h
    simp [nexusDashboardExpertGetResponse, h]
  · intro env question e hfq h
    simp [intersightExpertGetResponse, hfq, h]
  · intro env question e h
    simp [infrastructureExpertGetResponse, h]

/-- C7 witness: the amended statement instantiated at concrete failing
environments, one per expert. -/
theorem expert_failure_signal_amended_witness :
    generalExpertGetResponse c7Llm "hello" = .error ("General Expert error: " ++ "timeout") ∧
    aiPodsExpertGetResponse c7AiPodsEnv "which pod" = .error ("AI Pods Expert error: " ++ "vector store down") ∧
    nexusDashboardExpertGetResponse c7NexusEnv "show fabrics" = .error ("Nexus Dashboard Expert error: " ++ "ND unreachable") ∧
    intersightExpertGetResponse c7IntersightEnv "what gpus do i have" = .error ("Intersight Expert error: " ++ "LLM down") ∧
    infrastructureExpertGetResponse c7InfraEnv "show the switches in my environment" = .ok ("Error processing infrastructure query: " ++ "LLM backend unreachable") :=
  have h := expert_failure_signal_amended
  ⟨h.1 c7Llm "hello" "timeout" rfl,
   h.2.1 c7AiPodsEnv "which pod" "vector store down" rfl,
   h.2.2.1 c7NexusEnv "show fabrics" "ND unreachable" rfl,
   h.2.2.2.1 c7IntersightEnv "what gpus do i have" "LLM down" (by decide) rfl,
   h.2.2.2.2 c7InfraEnv "show the switches in my environment" "LLM backend unreachable" rfl⟩

/-- C8 counterexample: for `What servers do I have in my environment?` the
Intersight Expert's answer is the LLM narration (the `chain.invoke` call on
the tabular API response), not the templated tabular text itself — the LLM
narration path IS invoked for this question. -/
theorem server_inventory_cex :
    intersightExpertGetResponse c8Env serverInventoryQuestion =
      .ok "LLM NARRATION OF THE TABLE" ∧
    intersightExpertGetResponse c8Env serverInventoryQuestion ≠
      .ok (formatServersResponse [c8Server]) := by
  refine ⟨rfl, fun h => ?_⟩
  rw [show intersightExpertGetResponse c8Env serverInventoryQuestion =
        .ok "LLM NARRATION OF THE TABLE" from rfl] at h
  exact absurd (Except.ok.inj h) (by decide)

/-- C8 amended: for `What servers do I have in my environment?` the
server-inventory detector fires and routing selects the Intersight Expert;
the vendor-API layer returns the templated tabular server-inventory text;
but the expert then passes that text through the LLM narration path and
returns the narration (the table reaches the answer only inside the LLM
prompt). -/
theorem server_inventory_amended (env : IntersightExpertEnv)
    (servers : List ServerRecord) (narration : String)
    (hinit : env.api.initFailed = none)
    (hsrv : env.api.getServers = .ok servers)
    (hllm : env.chainInvoke serverInventoryQuestion (formatServersResponse servers) = .ok narration) :
    isServerInventoryQuery serverInventoryQuestion = true ∧
    determineExpertWithCot (some "") serverInventoryQuestion = "intersight" ∧
    intersightApiQuery env.api serverInventoryQuestion = formatServersResponse servers ∧
    intersightExpertGetResponse env serverInventoryQuestion = .ok narration := by
  have hpat : serverInventoryPatternHit (pyLower serverInventoryQuestion) = true := by decide
  have hfq : isFirmwareQuery serverInventoryQuestion = false := by decide
  have hapi : intersightApiQuery env.api serverInventoryQuestion = formatServersResponse servers := by
    simp [intersightApiQuery, hinit, hpat, hsrv, Except.map]
  refine ⟨by decide, by decide, hapi, ?_⟩
  simp [intersightExpertGetResponse, hfq, hapi, hllm]

/-- C8 witness: the amended statement at the concrete environment. -/
theorem server_inventory_amended_witness :
    isServerInventoryQuery serverInventoryQuestion = true ∧
    determineExpertWithCot (some "") serverInventoryQuestion = "intersight" ∧
    intersightApiQuery c8Env.api serverInventoryQuestion = formatServersResponse [c8Server] ∧
    intersightExpertGetResponse c8Env serverInventoryQuestion = .ok "LLM NARRATION OF THE TABLE" :=
  server_inventory_amended c8Env [c8Server] "LLM NARRATION OF THE TABLE" rfl rfl rfl

/-- C9: server-name extraction — for `what firmware is available for
server web-01` the ordered regex patterns (with the positional fallback)
extract exactly `web-01`; moreover this is a firmware query containing
`server`, so the Intersight Expert actually runs the extraction on it. -/
theorem server_name_extraction :
    extractServerName (pyLower "what firmware is available for server web-01") = some "web-01" ∧
    isFirmwareQuery "what firmware is available for server web-01" = true ∧
    pyContains (pyLower "what firmware is available for server web-01") "server" = true := by
  decide

/-- C10: `ExpertRouter.get_response` never returns normally — on every
environment and question its `try` block raises `AttributeError` looking
up the undefined `_route_question` before the local `expert_name` is
assigned, and the `except` handler then raises `UnboundLocalError` reading
that local, which escapes the handler. -/
theorem router_get_response_always_raises (env : RouterEnv) (question : String) :
    routerGetResponseTry env question =
      .error (.attributeError "_route_question", none) ∧
    routerGetResponse env question = .error (.unboundLocalError "expert_name") :=
  ⟨rfl, rfl⟩

end Bridgy

